import Mathlib

/-!
Verification development for the batch CSV-to-PostgreSQL loader scripts
(`import_csv_to_postgres.py` for the ORG dataset and `import_per_to_postgres.py`
for the PER dataset).  The Python scripts are shallowly embedded: pure string
coercion becomes pure Lean functions, the psycopg2 cursor/connection becomes an
explicit `Sink` state threaded through the loader, file streams become a list of
raw records with an optional trailing stream error, and Python exceptions become
`Except PyErr`.
-/

/-- Python exception classes that occur in the scripts' control flow. -/
inductive PyErr where
  | overflowError
  | fileNotFoundError
  | streamError
  | dbError
  | duplicateTable
deriving DecidableEq, Repr

/-- The value of a Python `float`: a finite value (modelled exactly as a
signed numerator over a positive power-of-ten denominator — the scripts only
ever truncate or store these), an infinity with a sign, or a NaN. -/
inductive PyFloat where
  | finite (num : ℤ) (den : ℕ)
  | inf (neg : Bool)
  | nan
deriving DecidableEq, Repr

/-- A coerced cell value as bound into an INSERT: Python `None` (SQL NULL), a
bool, an int, a float, or a string. -/
inductive Value where
  | none
  | pybool (b : Bool)
  | pyint (n : ℤ)
  | pyfloat (x : PyFloat)
  | pystr (s : String)
deriving DecidableEq, Repr

def valOfBool : Option Bool → Value
  | Option.none => Value.none
  | some b => Value.pybool b

def valOfInt : Option ℤ → Value
  | Option.none => Value.none
  | some n => Value.pyint n

def valOfFloat : Option PyFloat → Value
  | Option.none => Value.none
  | some x => Value.pyfloat x

def valOfStr : Option String → Value
  | Option.none => Value.none
  | some s => Value.pystr s

instance instDecEqExcept {ε α : Type} [DecidableEq ε] [DecidableEq α] :
    DecidableEq (Except ε α) := fun x y =>
  match x, y with
  | .ok a, .ok b => decidable_of_iff (a = b) (by simp)
  | .error e, .error f => decidable_of_iff (e = f) (by simp)
  | .ok _, .error _ => isFalse (by simp)
  | .error _, .ok _ => isFalse (by simp)

/-! ### Model of Python string comparison

Python compares strings lexicographically by code point; `sorted()` uses this
order.  (Lean's built-in `String.lt` agrees but is not kernel-reducible, so
the order is spelled out on the character lists.) -/

def lex_le : List Char → List Char → Bool
  | [], _ => true
  | _ :: _, [] => false
  | a :: as, b :: bs => if a < b then true else if a = b then lex_le as bs else false

def py_str_le (a b : String) : Bool := lex_le a.data b.data

/-- Model of Python `str.lower()` (ASCII case folding on the code points). -/
def py_lower (s : String) : String := String.mk (s.data.map Char.toLower)

theorem lex_le_cons (a b : Char) (as bs : List Char) :
    lex_le (a :: as) (b :: bs) = true ↔ a < b ∨ (a = b ∧ lex_le as bs = true) := by
  simp only [lex_le]
  split_ifs with h1 h2 <;> simp_all

theorem lex_le_total : ∀ as bs, lex_le as bs = true ∨ lex_le bs as = true := by
  intro as
  induction as with
  | nil => intro bs; left; rfl
  | cons a as ih =>
    intro bs
    cases bs with
    | nil => right; rfl
    | cons b bs =>
      rcases lt_trichotomy a b with h | h | h
      · left; exact (lex_le_cons ..).mpr (Or.inl h)
      · rcases ih bs with h2 | h2
        · left; exact (lex_le_cons ..).mpr (Or.inr ⟨h, h2⟩)
        · right; exact (lex_le_cons ..).mpr (Or.inr ⟨h.symm, h2⟩)
      · right; exact (lex_le_cons ..).mpr (Or.inl h)

theorem lex_le_trans : ∀ as bs cs, lex_le as bs = true → lex_le bs cs = true →
    lex_le as cs = true := by
  intro as
  induction as with
  | nil => intro bs cs _ _; rfl
  | cons a as ih =>
    intro bs cs h1 h2
    cases bs with
    | nil => exact absurd h1 (by simp [lex_le])
    | cons b bs =>
      cases cs with
      | nil => exact absurd h2 (by simp [lex_le])
      | cons c cs =>
        rcases (lex_le_cons ..).mp h1 with hab | ⟨hab, hab2⟩ <;>
          rcases (lex_le_cons ..).mp h2 with hbc | ⟨hbc, hbc2⟩
        · exact (lex_le_cons ..).mpr (Or.inl (lt_trans hab hbc))
        · exact (lex_le_cons ..).mpr (Or.inl (hbc ▸ hab))
        · exact (lex_le_cons ..).mpr (Or.inl (hab ▸ hbc))
        · exact (lex_le_cons ..).mpr (Or.inr ⟨hab.trans hbc, ih bs cs hab2 hbc2⟩)

instance : IsTotal String (fun a b => py_str_le a b = true) :=
  ⟨fun a b => lex_le_total a.data b.data⟩

instance : IsTrans String (fun a b => py_str_le a b = true) :=
  ⟨fun a b c => lex_le_trans a.data b.data c.data⟩

/-! ### Model of Python's `float(str)` parser

`float()` strips surrounding whitespace, then accepts an optional sign followed
by `inf`/`infinity`/`nan` (case-insensitive) or a decimal literal
`[digits][.digits][e[sign]digits]` with at least one mantissa digit, where a
single underscore may separate two digits.  Finite values are kept exactly as
numerator/denominator; digits are ASCII. -/

def isPySpace (c : Char) : Bool :=
  c == ' ' || c == '\t' || c == '\n' || c == '\r' || c == '\x0b' || c == '\x0c'

def stripPySpace (cs : List Char) : List Char :=
  ((cs.dropWhile isPySpace).reverse.dropWhile isPySpace).reverse

/-- Consume `(digit | '_' digit)*` greedily, returning digits read and rest. -/
def digitTail : List Char → List Char × List Char
  | [] => ([], [])
  | c :: rest =>
    if c.isDigit then
      let (ds, r) := digitTail rest
      (c :: ds, r)
    else if c = '_' then
      match rest with
      | [] => ([], [c])
      | d :: rest2 =>
        if d.isDigit then
          let (ds, r) := digitTail rest2
          (d :: ds, r)
        else ([], c :: rest)
    else ([], c :: rest)

/-- A digit group must start with a digit; underscores only between digits. -/
def digitPart : List Char → Option (List Char × List Char)
  | [] => Option.none
  | c :: rest =>
    if c.isDigit then
      let (ds, r) := digitTail rest
      some (c :: ds, r)
    else Option.none

def natOfDigits (ds : List Char) : ℕ :=
  ds.foldl (fun n c => 10 * n + (c.toNat - 48)) 0

def splitSign : List Char → Bool × List Char
  | '+' :: r => (false, r)
  | '-' :: r => (true, r)
  | r => (false, r)

/-- The exact value `ints.fracs` as (numerator, denominator). -/
def mantissaVal (ints fracs : List Char) : ℕ × ℕ :=
  (natOfDigits ints * 10 ^ fracs.length + natOfDigits fracs, 10 ^ fracs.length)

/-- Parse `digits [. digits]` or `. digits`; returns exact value and rest. -/
def parseMantissa (cs : List Char) : Option ((ℕ × ℕ) × List Char) :=
  match digitPart cs with
  | some (ints, rest) =>
    match rest with
    | '.' :: rest2 =>
      match digitPart rest2 with
      | some (fs, rest3) => some (mantissaVal ints fs, rest3)
      | Option.none => some (mantissaVal ints [], rest2)
    | _ => some (mantissaVal ints [], rest)
  | Option.none =>
    match cs with
    | '.' :: rest2 =>
      match digitPart rest2 with
      | some (fs, rest3) => some (mantissaVal [] fs, rest3)
      | Option.none => Option.none
    | _ => Option.none

/-- Parse `('e'|'E') [sign] digits`; `Option.none` when absent or malformed. -/
def parseExpPart : List Char → Option (ℤ × List Char)
  | [] => Option.none
  | c :: rest =>
    if c = 'e' ∨ c = 'E' then
      let (neg, rest2) := splitSign rest
      match digitPart rest2 with
      | some (ds, rest3) =>
        some ((if neg then -(natOfDigits ds : ℤ) else (natOfDigits ds : ℤ)), rest3)
      | Option.none => Option.none
    else Option.none

/-- Scale an exact mantissa by ten to an integer power. -/
def applyExp (m : ℕ × ℕ) : ℤ → ℕ × ℕ
  | Int.ofNat k => (m.1 * 10 ^ k, m.2)
  | Int.negSucc k => (m.1, m.2 * 10 ^ (k + 1))

/-- Model of Python `float(s)`: `Option.none` means `float` raises ValueError. -/
def float_of_string (s : String) : Option PyFloat :=
  let cs := stripPySpace s.data
  let (neg, cs1) := splitSign cs
  let low := cs1.map Char.toLower
  if low = "inf".data ∨ low = "infinity".data then some (PyFloat.inf neg)
  else if low = "nan".data then some PyFloat.nan
  else
    match parseMantissa cs1 with
    | Option.none => Option.none
    | some (m, rest) =>
      match rest with
      | [] => some (PyFloat.finite (if neg then -(m.1 : ℤ) else (m.1 : ℤ)) m.2)
      | _ =>
        match parseExpPart rest with
        | some (e, rest2) =>
          if rest2 = [] then
            let v := applyExp m e
            some (PyFloat.finite (if neg then -(v.1 : ℤ) else (v.1 : ℤ)) v.2)
          else Option.none
        | Option.none => Option.none

/-! ### Model of the file system, CSV stream, and psycopg2 cursor -/

/-- One decoded CSV line as produced by `csv.DictReader`: a mapping from
header column name to the raw field text.  `row.get(col, '')` is `dictGet`. -/
abbrev Record := List (String × String)

def dictGet (row : Record) (k : String) : String :=
  (row.lookup k).getD ""

/-- A source file as seen through `open_csv_file` + `csv.DictReader`:
either the path does not exist (open raises), or it yields a list of records
and then optionally raises a stream error mid-read (e.g. a decode error). -/
inductive CsvFile where
  | missing
  | content (rows : List Record) (tailErr : Option PyErr)

/-- Per-file outcome as reported by the import loop's logging: skipped by the
duplicate guard / rows imported / failed with an error. -/
structure FileOutcome where
  skipped : Bool
  rowsImported : ℕ
  failed : Bool
deriving DecidableEq, Repr

/-- The psycopg2 connection/cursor: `ok i` says whether the `i`-th bulk-insert
call on this connection succeeds, `probeOk` whether existence probes succeed,
`calls` records every attempted bulk-insert (size, succeeded), `rows` is the
pending (uncommitted) content of the current transaction, `committed` the
durable table content. -/
structure Sink where
  ok : ℕ → Bool
  probeOk : Bool
  calls : List (ℕ × Bool)
  rows : List (List Value)
  committed : List (List Value)

/-- `psycopg2.extras.execute_batch(cursor, insert_query, batch)`: one
bulk-insert round trip; records the attempt and, on success, appends the
batch to the transaction's pending rows. -/
def execute_batch (s : Sink) (batch : List (List Value)) : Sink × Bool :=
  let succeeded := s.ok s.calls.length
  ({ s with calls := s.calls ++ [(batch.length, succeeded)],
            rows := if succeeded then s.rows ++ batch else s.rows }, succeeded)

/-- `cursor.connection.commit()`: pending rows become durable. -/
def commit (s : Sink) : Sink :=
  { s with committed := s.committed ++ s.rows, rows := [] }

/-- Sum of the sizes of the bulk-insert calls that completed without raising. -/
def totalOk (s : Sink) : ℕ :=
  ((s.calls.filter (fun c => c.2)).map (fun c => c.1)).sum

/-- A fresh connection on an empty table, where every insert and probe
succeeds. -/
def healthy_sink : Sink :=
  { ok := fun _ => true, probeOk := true, calls := [], rows := [], committed := [] }

/-! ### The per-row loop body shared by both scripts' `import_csv_data` -/

/-- Body of the `for row in reader` loop after a successful `process_row`:
append to the batch; if the batch reached `batch_size`, bulk-insert it.  On
insert success the counter advances and the batch is cleared; if the insert
raises, the `except` swallows it, so the batch keeps its rows and the counter
is unchanged. -/
def flush_step (batch_size : ℕ) (st : Sink × List (List Value) × ℕ)
    (processed : List Value) : Sink × List (List Value) × ℕ :=
  match st with
  | (s, batch, total) =>
    let batch2 := batch ++ [processed]
    if batch_size ≤ batch2.length then
      match execute_batch s batch2 with
      | (s2, true) => (s2, [], total + batch2.length)
      | (s2, false) => (s2, batch2, total)
    else (s, batch2, total)

namespace Loader

variable (process_row : Record → Except PyErr (List Value))

/-- One iteration of the `for row in reader` loop: a row whose processing
raises is skipped (`except … continue`); otherwise `flush_step`. -/
def import_row_step (batch_size : ℕ) (st : Sink × List (List Value) × ℕ)
    (row : Record) : Sink × List (List Value) × ℕ :=
  match process_row row with
  | .error _ => st
  | .ok processed => flush_step batch_size st processed

/-- The records of `rows` whose `process_row` succeeds, in order. -/
def ok_rows (rows : List Record) : List (List Value) :=
  rows.filterMap (fun r => (process_row r).toOption)

/-- `import_csv_data(cursor, csv_file_path, batch_size)`: stream the file,
batch the coerced rows, flush full batches, flush the final partial batch, and
return the counted rows.  A missing file or a stream error propagates as an
exception (after the flushes already performed); the cursor state persists
either way. -/
def import_csv_data (file : CsvFile) (batch_size : ℕ) (sink : Sink) :
    Sink × Except PyErr ℕ :=
  match file with
  | .missing => (sink, .error .fileNotFoundError)
  | .content rows tailErr =>
    match rows.foldl (import_row_step process_row batch_size) (sink, [], 0) with
    | (s, batch, total) =>
      match tailErr with
      | some e => (s, .error e)
      | Option.none =>
        if batch.isEmpty then (s, .ok total)
        else
          match execute_batch s batch with
          | (s2, true) => (s2, .ok (total + batch.length))
          | (s2, false) => (s2, .error .dbError)

end Loader

/-! ### `import_csv_to_postgres.py` (ORG dataset, table `releases_org_export`) -/

namespace ImportCsv

/-- The hardcoded ORG schema: (column name, PostgreSQL type) pairs, in DDL and
positional-binding order. -/
def COLUMN_DEFINITIONS : List (String × String) := [
  ("ABOUT_US", "TEXT"),
  ("CATEGORY_CRUNCHBASE", "TEXT"),
  ("CATEGORY_G2", "TEXT"),
  ("COMPANY_ENTITY_TYPE", "TEXT"),
  ("COMPANY_LEGAL_TYPE", "TEXT"),
  ("COMPANY_NAME", "TEXT"),
  ("COMPANY_NAME_LANGUAGE", "TEXT"),
  ("EMPLOYEE_COUNT_MAX", "INTEGER"),
  ("EMPLOYEE_COUNT_MIN", "INTEGER"),
  ("EMPLOYEE_COUNT_RANGE", "TEXT"),
  ("EMPLOYEE_PROFILES_ON_LINKEDIN", "INTEGER"),
  ("FOUNDED", "INTEGER"),
  ("HEADQUARTERS_CITY", "TEXT"),
  ("HEADQUARTERS_COUNTRY_CODE", "TEXT"),
  ("HEADQUARTERS_COUNTRY_NAME", "TEXT"),
  ("HEADQUARTERS_COUNTRY_REGION", "TEXT"),
  ("HEADQUARTERS_CONTINENT", "TEXT"),
  ("HEADQUARTERS_POSTCODE", "TEXT"),
  ("HEADQUARTERS_STATE_CODE", "TEXT"),
  ("HEADQUARTERS_STATE_NAME", "TEXT"),
  ("HEADQUARTERS_STREET", "TEXT"),
  ("INDUSTRY_LINKEDIN", "TEXT"),
  ("INDUSTRY_SIC_CODE", "TEXT"),
  ("INDUSTRY_SIC_DESCRIPTION", "TEXT"),
  ("INDUSTRY_NAICS_CODE", "TEXT"),
  ("INDUSTRY_NAICS_DESCRIPTION", "TEXT"),
  ("INDUSTRY_NAICS_2022_CODE", "TEXT"),
  ("INDUSTRY_NAICS_2022_DESCRIPTION", "TEXT"),
  ("PREDICTED_INDUSTRY_NAICS_2022_CODE", "TEXT"),
  ("PREDICTED_INDUSTRY_NAICS_2022_DESCRIPTION", "TEXT"),
  ("INDUSTRY_UK_STANDARD_2007_CODE", "TEXT"),
  ("INDUSTRY_UK_STANDARD_2007_DESCRIPTION", "TEXT"),
  ("IS_LINKEDIN_URL_CLAIMED", "BOOLEAN"),
  ("LINKEDIN_FOLLOWERS", "INTEGER"),
  ("LINKEDIN_URL", "TEXT"),
  ("LINKEDIN_URL_ID", "NUMERIC"),
  ("LOCATION_CITY", "TEXT"),
  ("LOCATION_COUNT", "INTEGER"),
  ("LOCATION_COUNTRY_CODE", "TEXT"),
  ("LOCATION_COUNTRY_NAME", "TEXT"),
  ("LOCATION_COUNTRY_REGION", "TEXT"),
  ("LOCATION_CONTINENT", "TEXT"),
  ("LOCATION_IS_PRIMARY", "BOOLEAN"),
  ("LOCATION_POSTCODE", "TEXT"),
  ("LOCATION_STATE_CODE", "TEXT"),
  ("LOCATION_STATE_NAME", "TEXT"),
  ("LOCATION_STREET", "TEXT"),
  ("PHONE", "TEXT"),
  ("RBID", "TEXT"),
  ("REVENUE_MAX", "NUMERIC"),
  ("REVENUE_MIN", "NUMERIC"),
  ("REVENUE_RANGE", "TEXT"),
  ("SPECIALTIES", "TEXT"),
  ("UPDATED_AT", "DATE"),
  ("DOMAIN", "TEXT"),
  ("DOMAIN_TLD", "TEXT"),
  ("WEBSITE", "TEXT"),
  ("IS_WEBSITE_WORKING", "BOOLEAN"),
  ("IS_WEBSITE_FOR_SALE", "BOOLEAN")]

/-- `clean_value`: the source tuple is `(r'\N', '\\N', '')`.  Note that the
Python spellings `r'\N'` and `'\\N'` denote the *same* two-character string
(backslash, N), so the tuple holds just two distinct strings; both list
entries below are that same two-character string. -/
def clean_value (value : String) : Option String :=
  if value = "\\N" ∨ value = "\\N" ∨ value = "" then Option.none else some value

def parse_boolean (value : Option String) : Option Bool :=
  match value with
  | Option.none => Option.none
  | some v =>
    if v = "" then Option.none
    else if ["true", "t", "1", "yes"].contains (py_lower v) then some true
    else if ["false", "f", "0", "no"].contains (py_lower v) then some false
    else Option.none

/-- `parse_integer`: `int(float(value))` with only `ValueError`/`TypeError`
caught.  `float` raising is caught (→ None), `int(nan)` raises `ValueError`
which is caught (→ None), but `int(float('inf'))` raises `OverflowError`,
which the `except` clause does not catch, so it propagates. -/
def parse_integer (value : Option String) : Except PyErr (Option ℤ) :=
  match value with
  | Option.none => .ok Option.none
  | some v =>
    if v = "" then .ok Option.none
    else
      match float_of_string v with
      | Option.none => .ok Option.none
      | some PyFloat.nan => .ok Option.none
      | some (PyFloat.inf _) => .error .overflowError
      | some (PyFloat.finite num den) => .ok (some (num.tdiv (den : ℤ)))

def parse_numeric (value : Option String) : Option PyFloat :=
  match value with
  | Option.none => Option.none
  | some v => if v = "" then Option.none else float_of_string v

/-- One column of `process_row`'s body: `clean_value` first, then the
type-directed parse (`BOOLEAN` / `INTEGER` / `NUMERIC` / `DATE` kept as text /
anything else kept as text). -/
def coerce (col_type : String) (raw : String) : Except PyErr Value :=
  let value := clean_value raw
  if col_type = "BOOLEAN" then .ok (valOfBool (parse_boolean value))
  else if col_type = "INTEGER" then (parse_integer value).map valOfInt
  else if col_type = "NUMERIC" then .ok (valOfFloat (parse_numeric value))
  else if col_type = "DATE" then .ok (valOfStr value)
  else .ok (valOfStr value)

/-- `process_row`: coerce `row.get(col_name, '')` for every schema column in
order; the first exception aborts the row. -/
def process_row (row : Record) : Except PyErr (List Value) :=
  COLUMN_DEFINITIONS.mapM (fun cd => coerce cd.2 (dictGet row cd.1))

def import_csv_data (file : CsvFile) (batch_size : ℕ) (sink : Sink) :
    Sink × Except PyErr ℕ :=
  Loader.import_csv_data process_row file batch_size sink

/-- `import_multiple_csv_files`: sequentially import each file, committing
after each successful file; a failed file is logged and skipped with a bare
`continue` — no rollback is issued, so its pending rows stay in the open
transaction. -/
def import_multiple_csv_files (files : List CsvFile) (batch_size : ℕ)
    (sink : Sink) : Sink × ℕ × List FileOutcome :=
  files.foldl (fun acc f =>
    match acc with
    | (s, total, outs) =>
      match import_csv_data f batch_size s with
      | (s2, .ok n) => (commit s2, total + n, outs ++ [⟨false, n, false⟩])
      | (s2, .error _) => (s2, total, outs ++ [⟨false, 0, true⟩]))
    (sink, 0, [])

/-- The destination table: whether it exists and its data rows. -/
structure TableState where
  table_exists : Bool
  rows : List (List Value)
deriving DecidableEq, Repr

/-- `create_table` (ORG): `DROP TABLE IF EXISTS … CASCADE` then
`CREATE TABLE` — unconditional destructive refresh, never raises. -/
def create_table (_t : TableState) : TableState :=
  { table_exists := true, rows := [] }

/-- `folder.glob('*.csv')` on an entry name: the fnmatch pattern `*.csv`
matches exactly the names ending in the literal suffix. -/
def glob_suffix (suffix name : String) : Bool :=
  suffix.data.isSuffixOf name.data

/-- `get_csv_files`: raise `FileNotFoundError` when the folder does not exist;
otherwise union the `*.csv` and `*.csv.gz` glob results, render them as paths
under the folder, and sort.  The folder is `Option.none` when missing, else
the list of entry names it contains. -/
def get_csv_files (folder : Option (List String)) (folder_path : String) :
    Except PyErr (List String) :=
  match folder with
  | Option.none => .error .fileNotFoundError
  | some entries =>
    let csv_files := entries.filter (glob_suffix ".csv") ++
      entries.filter (glob_suffix ".csv.gz")
    .ok ((csv_files.map (fun n => folder_path ++ "/" ++ n)).insertionSort
      (fun a b => py_str_le a b = true))

end ImportCsv

/-! ### `import_per_to_postgres.py` (PER dataset, table `releases_per_export`) -/

namespace ImportPer

/-- The hardcoded PER schema. -/
def COLUMN_DEFINITIONS : List (String × String) := [
  ("LINKEDIN_URL", "TEXT"),
  ("ABOUT_ME", "TEXT"),
  ("CELLPHONE", "TEXT"),
  ("CITY", "TEXT"),
  ("COUNTRY_CODE", "TEXT"),
  ("COUNTRY_NAME", "TEXT"),
  ("COUNTRY_REGION", "TEXT"),
  ("CONTINENT", "TEXT"),
  ("DIRECT_PHONE", "TEXT"),
  ("EDUCATION", "TEXT"),
  ("FIRST_NAME", "TEXT"),
  ("FULL_NAME", "TEXT"),
  ("INTERESTS", "TEXT"),
  ("JOB_COUNT", "INTEGER"),
  ("JOB_DESCRIPTION", "TEXT"),
  ("JOB_END_DATE", "TEXT"),
  ("JOB_IS_CURRENT", "BOOLEAN"),
  ("JOB_LEVEL", "TEXT"),
  ("JOB_LOCATION_CITY", "TEXT"),
  ("JOB_LOCATION_COUNTRY", "TEXT"),
  ("JOB_LOCATION_COUNTRY_CODE", "TEXT"),
  ("JOB_LOCATION_COUNTRY_REGION", "TEXT"),
  ("JOB_LOCATION_CONTINENT", "TEXT"),
  ("JOB_LOCATION_STATE", "TEXT"),
  ("JOB_LOCATION_STATE_CODE", "TEXT"),
  ("JOB_START_DATE", "TEXT"),
  ("JOB_ORDER_IN_PROFILE", "INTEGER"),
  ("JOB_ORG_LINKEDIN_URL", "TEXT"),
  ("JOB_TITLE", "TEXT"),
  ("JOB_FUNCTION", "TEXT"),
  ("LANGUAGES", "TEXT"),
  ("LAST_NAME", "TEXT"),
  ("LINKEDIN_CONNECTIONS_COUNT", "INTEGER"),
  ("LINKEDIN_HEADLINE", "TEXT"),
  ("LINKEDIN_INDUSTRY", "TEXT"),
  ("MIDDLE_NAME", "TEXT"),
  ("NICKNAME_NAME", "TEXT"),
  ("RBID", "TEXT"),
  ("RBID_ORG", "TEXT"),
  ("RBID_PAO", "TEXT"),
  ("SKILLS", "TEXT"),
  ("CERTIFICATIONS", "TEXT"),
  ("PATENTS", "TEXT"),
  ("PUBLICATIONS", "TEXT"),
  ("WEBSITES", "TEXT"),
  ("STATE_CODE", "TEXT"),
  ("STATE_NAME", "TEXT"),
  ("SUFFIX_NAME", "TEXT"),
  ("TITLE_NAME", "TEXT"),
  ("EMAIL_DOMAIN", "TEXT"),
  ("UPDATED_AT", "TIMESTAMP"),
  ("RN", "INTEGER"),
  ("EMAIL_STATUS", "TEXT"),
  ("EMAIL_ADDRESS", "TEXT"),
  ("EMAIL_LAST_VERIFIED_AT", "TIMESTAMP"),
  ("PERSONA", "TEXT")]

/-- `clean_value` (identical text to the ORG script): both Python spellings
`r'\N'` and `'\\N'` in the source tuple denote the same two-character string. -/
def clean_value (value : String) : Option String :=
  if value = "\\N" ∨ value = "\\N" ∨ value = "" then Option.none else some value

def parse_boolean (value : Option String) : Option Bool :=
  match value with
  | Option.none => Option.none
  | some v =>
    if v = "" then Option.none
    else if ["true", "t", "1", "yes"].contains (py_lower v) then some true
    else if ["false", "f", "0", "no"].contains (py_lower v) then some false
    else Option.none

/-- `parse_integer` (identical text to the ORG script): `int(float(value))`
catching only `ValueError`/`TypeError`; `OverflowError` from
`int(float('inf'))` propagates. -/
def parse_integer (value : Option String) : Except PyErr (Option ℤ) :=
  match value with
  | Option.none => .ok Option.none
  | some v =>
    if v = "" then .ok Option.none
    else
      match float_of_string v with
      | Option.none => .ok Option.none
      | some PyFloat.nan => .ok Option.none
      | some (PyFloat.inf _) => .error .overflowError
      | some (PyFloat.finite num den) => .ok (some (num.tdiv (den : ℤ)))

/-- One column of the PER `process_row` body: `BOOLEAN` / `INTEGER` /
`TIMESTAMP` and `DATE` kept as text / anything else kept as text. -/
def coerce (col_type : String) (raw : String) : Except PyErr Value :=
  let value := clean_value raw
  if col_type = "BOOLEAN" then .ok (valOfBool (parse_boolean value))
  else if col_type = "INTEGER" then (parse_integer value).map valOfInt
  else if col_type = "TIMESTAMP" ∨ col_type = "DATE" then .ok (valOfStr value)
  else .ok (valOfStr value)

def process_row (row : Record) : Except PyErr (List Value) :=
  COLUMN_DEFINITIONS.mapM (fun cd => coerce cd.2 (dictGet row cd.1))

/-- The destination table for the PER script. -/
structure TableState where
  table_exists : Bool
  rows : List (List Value)
deriving DecidableEq, Repr

/-- `create_table` (PER): the `DROP TABLE IF EXISTS` line is commented out in
the source, so only `CREATE TABLE` (without `IF NOT EXISTS`) runs; on an
existing table PostgreSQL raises a duplicate-table error. -/
def create_table (t : TableState) : Except PyErr TableState :=
  if t.table_exists then .error .duplicateTable
  else .ok { table_exists := true, rows := [] }

/-- One conjunct of the duplicate probe's WHERE clause: `col IS NULL` when the
coerced value is None, else `col = %s` with the value bound. -/
def row_matches_where (probe row : List Value) : Bool :=
  (List.zip probe row).all (fun pv =>
    match pv.1 with
    | Value.none => decide (pv.2 = Value.none)
    | p => decide (pv.2 = p))

/-- `is_csv_file_imported`: open the file, process only its first record,
build the conjunctive probe, and query `SELECT 1 … LIMIT 1` over the table
(the cursor sees committed plus this transaction's pending rows).  Any
exception anywhere — open, decode, coercion, or the probe query — is caught
and reported as `False`; an empty file also yields `False`. -/
def is_csv_file_imported (file : CsvFile) (s : Sink) : Bool :=
  match file with
  | .missing => false
  | .content rows _ =>
    match rows with
    | [] => false
    | row :: _ =>
      match process_row row with
      | .error _ => false
      | .ok probe =>
        if s.probeOk then (s.committed ++ s.rows).any (row_matches_where probe)
        else false

def import_csv_data (file : CsvFile) (batch_size : ℕ) (sink : Sink) :
    Sink × Except PyErr ℕ :=
  Loader.import_csv_data process_row file batch_size sink

/-- `import_multiple_files`: per file, consult the duplicate guard (skip with
a log line when it reports true), else import and commit; a failed file is
logged and skipped with a bare `continue` — no rollback. -/
def import_multiple_files (files : List CsvFile) (batch_size : ℕ)
    (sink : Sink) : Sink × ℕ × List FileOutcome :=
  files.foldl (fun acc f =>
    match acc with
    | (s, total, outs) =>
      if is_csv_file_imported f s then (s, total, outs ++ [⟨true, 0, false⟩])
      else
        match import_csv_data f batch_size s with
        | (s2, .ok n) => (commit s2, total + n, outs ++ [⟨false, n, false⟩])
        | (s2, .error _) => (s2, total, outs ++ [⟨false, 0, true⟩]))
    (sink, 0, [])

end ImportPer

namespace Loader

variable (process_row : Record → Except PyErr (List Value))

/-- The loop over raw records is the loop over the successfully processed
rows: records whose processing raises are skipped. -/
theorem foldl_import_row_step (batch_size : ℕ) (rows : List Record) :
    ∀ st : Sink × List (List Value) × ℕ,
      rows.foldl (import_row_step process_row batch_size) st =
        (ok_rows process_row rows).foldl (flush_step batch_size) st := by
  induction rows with
  | nil => intro st; rfl
  | cons r rest ih =>
    intro st
    rw [List.foldl_cons]
    cases h : process_row r with
    | error e =>
      rw [show import_row_step process_row batch_size st r = st from by
        simp [import_row_step, h]]
      rw [ih st]
      simp [ok_rows, List.filterMap_cons, h, Except.toOption]
    | ok p =>
      rw [show import_row_step process_row batch_size st r =
          flush_step batch_size st p from by simp [import_row_step, h]]
      rw [ih _]
      simp [ok_rows, List.filterMap_cons, h, Except.toOption]

end Loader

/-- On a sink whose inserts all succeed, the loop flushes a full batch exactly
each time the accumulator reaches `batch_size`: the flushed calls all have
size `batch_size`, the flushed rows are the corresponding prefix of the
processed rows, the leftover batch is the remaining suffix, and the counter
advances by the flushed amount. -/
theorem foldl_flush_step_ok (batch_size : ℕ) (hb : 0 < batch_size) :
    ∀ (vs : List (List Value)) (s : Sink) (batch : List (List Value)) (total : ℕ),
      (∀ i, s.ok i = true) → batch.length < batch_size →
      vs.foldl (flush_step batch_size) (s, batch, total) =
        ({ s with
            calls := s.calls ++
              List.replicate ((batch.length + vs.length) / batch_size) (batch_size, true),
            rows := s.rows ++
              (batch ++ vs).take (batch_size * ((batch.length + vs.length) / batch_size)) },
         (batch ++ vs).drop (batch_size * ((batch.length + vs.length) / batch_size)),
         total + batch_size * ((batch.length + vs.length) / batch_size)) := by
  intro vs
  induction vs with
  | nil =>
    intro s batch total hok hlen
    have h0 : (batch.length + ([] : List (List Value)).length) / batch_size = 0 :=
      Nat.div_eq_of_lt (by simpa using hlen)
    rw [h0]
    simp
  | cons v vs ih =>
    intro s batch total hok hlen
    rw [List.foldl_cons]
    by_cases hfull : batch_size ≤ (batch ++ [v]).length
    · have hlen2 : (batch ++ [v]).length = batch_size := by
        simp only [List.length_append, List.length_singleton] at hfull ⊢
        omega
      have hexec : execute_batch s (batch ++ [v]) =
          ({ s with calls := s.calls ++ [(batch_size, true)],
                    rows := s.rows ++ (batch ++ [v]) }, true) := by
        simp [execute_batch, hok, hlen2]
      have hst : flush_step batch_size (s, batch, total) v =
          ({ s with calls := s.calls ++ [(batch_size, true)],
                    rows := s.rows ++ (batch ++ [v]) }, [], total + batch_size) := by
        simp only [flush_step, hexec, if_pos hfull]
        rw [hlen2]
      rw [hst]
      have ihx := ih { s with calls := s.calls ++ [(batch_size, true)],
                              rows := s.rows ++ (batch ++ [v]) }
        [] (total + batch_size) (fun i => hok i) (by simpa using hb)
      rw [ihx]
      have hq : (batch.length + (v :: vs).length) / batch_size =
          vs.length / batch_size + 1 := by
        simp only [List.length_cons]
        rw [show batch.length + (vs.length + 1) = vs.length + batch_size from by
          simp only [List.length_append, List.length_singleton] at hlen2; omega]
        exact Nat.add_div_right vs.length hb
      have hsplit : batch ++ v :: vs = (batch ++ [v]) ++ vs := by simp
      have hmul : batch_size * ((batch.length + (v :: vs).length) / batch_size) =
          (batch ++ [v]).length + batch_size * (vs.length / batch_size) := by
        rw [hq, hlen2]; ring
      simp only [List.length_nil, Nat.zero_add, List.nil_append, Prod.mk.injEq]
      refine ⟨?_, ?_, ?_⟩
      · congr 1
        · rw [hq, List.replicate_succ]
          simp
        · rw [hsplit, hmul, List.take_append]
          simp [List.append_assoc]
      · rw [hsplit, hmul, List.drop_append]
      · rw [hq]; ring
    · have hst : flush_step batch_size (s, batch, total) v = (s, batch ++ [v], total) := by
        simp only [flush_step, if_neg hfull]
      rw [hst, ih s (batch ++ [v]) total hok (by
        simp only [List.length_append, List.length_singleton]
        simp only [List.length_append, List.length_singleton] at hfull
        omega)]
      have harg : (batch ++ [v]).length + vs.length = batch.length + (v :: vs).length := by
        simp; omega
      rw [harg, show (batch ++ [v]) ++ vs = batch ++ v :: vs from by simp]

namespace Loader

variable (process_row : Record → Except PyErr (List Value))

/-- `import_csv_data` on an intact file over an all-inserts-succeed sink:
full batches of size `batch_size`, one final partial batch, row count equal
to the number of successfully processed records. -/
theorem import_csv_data_ok_char (batch_size : ℕ) (hb : 0 < batch_size)
    (rows : List Record) (s : Sink) (hok : ∀ i, s.ok i = true) :
    import_csv_data process_row (CsvFile.content rows Option.none) batch_size s =
      ({ s with
          calls := s.calls ++
            (List.replicate ((ok_rows process_row rows).length / batch_size)
              (batch_size, true) ++
              (if (ok_rows process_row rows).length % batch_size = 0 then []
               else [((ok_rows process_row rows).length % batch_size, true)])),
          rows := s.rows ++ ok_rows process_row rows },
       .ok (ok_rows process_row rows).length) := by
  rw [import_csv_data, foldl_import_row_step]
  generalize ok_rows process_row rows = vs
  rw [foldl_flush_step_ok batch_size hb vs s [] 0 hok (by simpa using hb)]
  simp only [List.length_nil, Nat.zero_add, List.nil_append]
  by_cases hmod : vs.length % batch_size = 0
  · have hmul : batch_size * (vs.length / batch_size) = vs.length :=
      Nat.mul_div_cancel' (Nat.dvd_of_mod_eq_zero hmod)
    rw [hmul, List.drop_length, List.take_length]
    simp [hmod]
  · have hlen : (vs.drop (batch_size * (vs.length / batch_size))).length =
        vs.length % batch_size := by
      rw [List.length_drop]
      have := Nat.div_add_mod vs.length batch_size
      omega
    have hne : (vs.drop (batch_size * (vs.length / batch_size))).isEmpty = false := by
      cases hdrop : vs.drop (batch_size * (vs.length / batch_size)) with
      | nil => rw [hdrop] at hlen; simp at hlen; omega
      | cons a t => rfl
    rw [hne]
    simp only [Bool.false_eq_true, if_false]
    have hexec : execute_batch
        ({ s with
            calls := s.calls ++ List.replicate (vs.length / batch_size) (batch_size, true),
            rows := s.rows ++ vs.take (batch_size * (vs.length / batch_size)) })
        (vs.drop (batch_size * (vs.length / batch_size))) =
        ({ s with
            calls := (s.calls ++ List.replicate (vs.length / batch_size) (batch_size, true)) ++
              [(vs.length % batch_size, true)],
            rows := (s.rows ++ vs.take (batch_size * (vs.length / batch_size))) ++
              vs.drop (batch_size * (vs.length / batch_size)) }, true) := by
      simp [execute_batch, hok, hlen]
    rw [hexec]
    simp only [Prod.mk.injEq]
    refine ⟨?_, ?_⟩
    · congr 1
      · simp [hmod, List.append_assoc]
      · rw [List.append_assoc, List.take_append_drop]
    · rw [hlen]
      congr 1
      exact Nat.div_add_mod vs.length batch_size

/-- `import_csv_data` on a file whose stream raises after its records, over an
all-inserts-succeed sink: the full batches flushed before the error persist on
the cursor, the error propagates, and the final partial batch is never
flushed. -/
theorem import_csv_data_err_char (batch_size : ℕ) (hb : 0 < batch_size)
    (rows : List Record) (e : PyErr) (s : Sink) (hok : ∀ i, s.ok i = true) :
    import_csv_data process_row (CsvFile.content rows (some e)) batch_size s =
      ({ s with
          calls := s.calls ++
            List.replicate ((ok_rows process_row rows).length / batch_size)
              (batch_size, true),
          rows := s.rows ++
            (ok_rows process_row rows).take
              (batch_size * ((ok_rows process_row rows).length / batch_size)) },
       .error e) := by
  rw [import_csv_data, foldl_import_row_step]
  generalize ok_rows process_row rows = vs
  rw [foldl_flush_step_ok batch_size hb vs s [] 0 hok (by simpa using hb)]
  simp

end Loader

/-- `execute_batch` adds the batch size to the successful-call total exactly
when it succeeds. -/
theorem totalOk_execute_batch (s : Sink) (batch : List (List Value)) :
    totalOk (execute_batch s batch).1 =
      totalOk s + (if (execute_batch s batch).2 then batch.length else 0) := by
  rcases hc : s.ok s.calls.length with _ | _ <;>
    simp [execute_batch, totalOk, hc, List.filter_append]

/-- One loop iteration advances the running row count by exactly the size of
the bulk-insert calls it completed without raising. -/
theorem flush_step_count (batch_size : ℕ) (st : Sink × List (List Value) × ℕ)
    (v : List Value) :
    (flush_step batch_size st v).2.2 + totalOk st.1 =
      st.2.2 + totalOk (flush_step batch_size st v).1 := by
  rcases st with ⟨s, batch, total⟩
  by_cases hfull : batch_size ≤ (batch ++ [v]).length
  · have h := totalOk_execute_batch s (batch ++ [v])
    rcases hexec : execute_batch s (batch ++ [v]) with ⟨s2, ok2⟩
    rw [hexec] at h
    cases ok2 <;>
      simp only [flush_step, if_pos hfull, hexec] <;>
      simp only at h <;> simp [h] <;> omega
  · have hfull2 : ¬ batch_size ≤ batch.length + 1 := by simpa using hfull
    simp [flush_step, hfull2]

namespace Loader

variable (process_row : Record → Except PyErr (List Value))

theorem import_row_step_count (batch_size : ℕ) (st : Sink × List (List Value) × ℕ)
    (row : Record) :
    (import_row_step process_row batch_size st row).2.2 + totalOk st.1 =
      st.2.2 + totalOk (import_row_step process_row batch_size st row).1 := by
  cases h : process_row row with
  | error e => simp [import_row_step, h]
  | ok p =>
    have := flush_step_count batch_size st p
    simpa [import_row_step, h] using this

theorem foldl_import_row_step_count (batch_size : ℕ) (rows : List Record) :
    ∀ st : Sink × List (List Value) × ℕ,
      (rows.foldl (import_row_step process_row batch_size) st).2.2 + totalOk st.1 =
        st.2.2 + totalOk (rows.foldl (import_row_step process_row batch_size) st).1 := by
  induction rows with
  | nil => intro st; rfl
  | cons r rest ih =>
    intro st
    rw [List.foldl_cons]
    have h1 := import_row_step_count process_row batch_size st r
    have h2 := ih (import_row_step process_row batch_size st r)
    omega

end Loader

namespace Loader

variable (process_row : Record → Except PyErr (List Value))

/-- Whenever `import_csv_data` returns a count, that count is exactly the
total size of the bulk-insert calls that completed without raising during the
call (flushes that raised contribute nothing). -/
theorem import_csv_data_count (batch_size : ℕ) (file : CsvFile) (s s' : Sink)
    (n : ℕ) (h : import_csv_data process_row file batch_size s = (s', .ok n)) :
    n + totalOk s = totalOk s' := by
  cases file with
  | missing => simp [import_csv_data] at h
  | content rows tailErr =>
    have hc := foldl_import_row_step_count process_row batch_size rows (s, [], 0)
    rcases hfold : rows.foldl (import_row_step process_row batch_size) (s, [], 0)
      with ⟨s1, batch, total⟩
    rw [hfold] at hc
    simp only at hc
    rw [import_csv_data, hfold] at h
    cases tailErr with
    | some e => simp at h
    | none =>
      dsimp only at h
      by_cases hemp : batch.isEmpty = true
      · rw [if_pos hemp] at h
        simp only [Prod.mk.injEq, Except.ok.injEq] at h
        obtain ⟨h1, h2⟩ := h
        subst h1; subst h2
        omega
      · rw [if_neg hemp] at h
        have ht := totalOk_execute_batch s1 batch
        rcases hexec : execute_batch s1 batch with ⟨s2, ok2⟩
        rw [hexec] at h ht
        cases ok2 with
        | true =>
          simp only [Prod.mk.injEq, Except.ok.injEq] at h
          obtain ⟨h1, h2⟩ := h
          subst h1; subst h2
          simp at ht
          omega
        | false => simp at h

end Loader

/-- A coerced row satisfies the probe built from itself: NULL positions match
their `IS NULL` clauses and non-NULL positions match their equalities. -/
theorem row_matches_where_refl : ∀ p : List Value, ImportPer.row_matches_where p p = true := by
  intro p
  induction p with
  | nil => rfl
  | cons a t ih =>
    rw [ImportPer.row_matches_where] at ih ⊢
    simp only [List.zip_cons_cons, List.all_cons, Bool.and_eq_true]
    exact ⟨by cases a <;> simp, ih⟩

/-- The all-NULL TypedRow produced by coercing an empty ORG record. -/
def ImportCsv.null_row : List Value :=
  ImportCsv.COLUMN_DEFINITIONS.map (fun _ => Value.none)

/-- The all-NULL TypedRow produced by coercing an empty PER record. -/
def ImportPer.null_row : List Value :=
  ImportPer.COLUMN_DEFINITIONS.map (fun _ => Value.none)

/-- An ORG TypedRow that is NULL everywhere except `COMPANY_NAME`. -/
def ImportCsv.company_row (v : String) : List Value :=
  ImportCsv.COLUMN_DEFINITIONS.map
    (fun cd => if cd.1 = "COMPANY_NAME" then Value.pystr v else Value.none)

def rec_a : Record := [("COMPANY_NAME", "a")]

def rec_b : Record := [("COMPANY_NAME", "b")]

def rec_c : Record := [("COMPANY_NAME", "c")]

/-- A PER record whose `JOB_COUNT` field makes `parse_integer` raise. -/
def rec_inf : Record := [("JOB_COUNT", "inf")]

/-- A fresh connection whose first bulk-insert call fails and later ones
succeed. -/
def fail_sink : Sink :=
  { ok := fun i => decide (0 < i), probeOk := true, calls := [], rows := [],
    committed := [] }

/-- Claim C1, counterexample: the three-character input backslash-backslash-N
(the "escaped backslash" sentinel the claim describes) is not recognized by
`clean_value` — the source tuple's two spellings both denote the
two-character string — so for the Text type it coerces to itself, not to
NULL. -/
theorem C1_counterexample :
    ImportCsv.coerce "TEXT" "\\\\N" = .ok (Value.pystr "\\\\N") ∧
    ImportCsv.coerce "TEXT" "\\\\N" ≠ .ok Value.none := by decide

/-- Claim C1, amended: for every declared type (indeed every column-type
string), both scripts' coercion maps the empty string and the two-character
sentinel backslash-N to NULL, before any type-specific parsing; the
three-character backslash-backslash-N form is not a sentinel. -/
theorem C1_theorem (t : String) :
    ImportCsv.coerce t "" = .ok Value.none ∧
    ImportCsv.coerce t "\\N" = .ok Value.none ∧
    ImportPer.coerce t "" = .ok Value.none ∧
    ImportPer.coerce t "\\N" = .ok Value.none := by
  have hc1 : ImportCsv.clean_value "" = Option.none := by decide
  have hc2 : ImportCsv.clean_value "\\N" = Option.none := by decide
  have hp1 : ImportPer.clean_value "" = Option.none := by decide
  have hp2 : ImportPer.clean_value "\\N" = Option.none := by decide
  refine ⟨?_, ?_, ?_, ?_⟩
  · simp only [ImportCsv.coerce, hc1, ImportCsv.parse_boolean, ImportCsv.parse_integer,
      ImportCsv.parse_numeric, valOfBool, valOfInt, valOfFloat, valOfStr, Except.map]
    split_ifs <;> rfl
  · simp only [ImportCsv.coerce, hc2, ImportCsv.parse_boolean, ImportCsv.parse_integer,
      ImportCsv.parse_numeric, valOfBool, valOfInt, valOfFloat, valOfStr, Except.map]
    split_ifs <;> rfl
  · simp only [ImportPer.coerce, hp1, ImportPer.parse_boolean, ImportPer.parse_integer,
      valOfBool, valOfInt, valOfStr, Except.map]
    split_ifs <;> rfl
  · simp only [ImportPer.coerce, hp2, ImportPer.parse_boolean, ImportPer.parse_integer,
      valOfBool, valOfInt, valOfStr, Except.map]
    split_ifs <;> rfl

/-- Claim C2: evaluating the code at the failing input.  `parse_integer`
(hence Integer coercion) raises `OverflowError` on `"inf"` — `float('inf')`
succeeds and `int(·)` then raises an exception class the `except` clause does
not catch — contradicting "total and never raises".  On the claim's other
inputs the code behaves as stated: `"42.0"` truncates to `42`, `"abc"`
yields NULL. -/
theorem C2_theorem :
    ImportCsv.parse_integer (some "inf") = .error PyErr.overflowError ∧
    ImportPer.parse_integer (some "inf") = .error PyErr.overflowError ∧
    ImportCsv.coerce "INTEGER" "inf" = .error PyErr.overflowError ∧
    ImportCsv.parse_integer (some "42.0") = .ok (some 42) ∧
    ImportPer.parse_integer (some "7.0") = .ok (some 7) ∧
    ImportCsv.parse_integer (some "abc") = .ok Option.none := by decide

/-- Claim C4: evaluating the code at the failing input.  The PER script's
`create_table` (drop commented out, `CREATE TABLE` without `IF NOT EXISTS`)
raises on an existing populated table, so a second full run aborts before
importing anything; the ORG script's `create_table` drops and recreates,
leaving an empty table regardless of prior data. -/
theorem C4_theorem :
    ImportPer.create_table { table_exists := true, rows := [[Value.pystr "x"]] } =
      .error PyErr.duplicateTable ∧
    ImportCsv.create_table { table_exists := true, rows := [[Value.pystr "x"]] } =
      { table_exists := true, rows := [] } :=
  ⟨rfl, rfl⟩

/-- Claim C8: Boolean coercion is total and never raises, and matches the
spec's table exactly and case-insensitively: `{true,t,1,yes}` (any case) give
true, `{false,f,0,no}` give false, everything else — including the NULL
sentinels and malformed input — gives NULL. -/
theorem C8_theorem (raw : String) :
    ImportCsv.coerce "BOOLEAN" raw =
      .ok (if ["true", "t", "1", "yes"].contains (py_lower raw) then Value.pybool true
        else if ["false", "f", "0", "no"].contains (py_lower raw) then Value.pybool false
        else Value.none) := by
  by_cases h : raw = "\\N" ∨ raw = ""
  · rcases h with h | h <;> subst h <;> decide
  · push_neg at h
    have hc : ImportCsv.clean_value raw = some raw := by
      simp [ImportCsv.clean_value, h.1, h.2]
    simp only [ImportCsv.coerce, hc, ImportCsv.parse_boolean, if_pos rfl, h.2,
      if_false, if_neg h.2]
    split_ifs <;> rfl

/-- Claim C9: `get_csv_files` raises `FileNotFoundError` exactly when the
folder is missing; otherwise it returns the union of the `*.csv` and
`*.csv.gz` matches as folder-relative paths, sorted lexicographically (it is
a sorted permutation of the union); on the spec's example folder it returns
`[a.csv.gz, b.csv, c.csv]` paths in that order. -/
theorem C9_theorem :
    (∀ p : String, ImportCsv.get_csv_files Option.none p = .error PyErr.fileNotFoundError) ∧
    (∀ (entries : List String) (p : String),
      ∃ l, ImportCsv.get_csv_files (some entries) p = .ok l ∧
        List.Sorted (fun a b => py_str_le a b = true) l ∧
        l.Perm ((entries.filter (ImportCsv.glob_suffix ".csv") ++
          entries.filter (ImportCsv.glob_suffix ".csv.gz")).map (fun n => p ++ "/" ++ n))) ∧
    ImportCsv.get_csv_files (some ["b.csv", "a.csv.gz", "c.csv"]) "d" =
      .ok ["d/a.csv.gz", "d/b.csv", "d/c.csv"] := by
  refine ⟨fun p => rfl, fun entries p => ?_, by decide⟩
  exact ⟨_, rfl, List.sorted_insertionSort _ _, List.perm_insertionSort _ _⟩

/-- Claim C5: the duplicate guard probes only the file's first record, coerced
through the schema; it reports true exactly when such a first record exists,
coerces without raising, the probe query succeeds, and some table row
(committed or pending) matches the conjunctive probe; in every other case —
no match, empty file, unreadable file, coercion failure, or the probe query
itself raising — it reports false.  The probe matches a row exactly when each
column equals the coerced value, NULL columns matching via `IS NULL`. -/
theorem C5_theorem :
    (∀ (f : CsvFile) (s : Sink),
      ImportPer.is_csv_file_imported f s = true ↔
        ∃ (r : Record) (rest : List Record) (te : Option PyErr) (probe : List Value),
          f = CsvFile.content (r :: rest) te ∧
          ImportPer.process_row r = .ok probe ∧
          s.probeOk = true ∧
          (s.committed ++ s.rows).any (ImportPer.row_matches_where probe) = true) ∧
    (∀ probe row : List Value,
      ImportPer.row_matches_where probe row = true ↔
        ∀ pv ∈ List.zip probe row, pv.2 = pv.1) := by
  constructor
  · intro f s
    cases f with
    | missing => simp [ImportPer.is_csv_file_imported]
    | content rows te =>
      cases rows with
      | nil => simp [ImportPer.is_csv_file_imported]
      | cons r rest =>
        cases hp : ImportPer.process_row r with
        | error e =>
          simp only [ImportPer.is_csv_file_imported, hp]
          constructor
          · intro h; exact absurd h (by simp)
          · rintro ⟨r', rest', te', probe, heq, hpr, -, -⟩
            obtain ⟨h1, -⟩ := CsvFile.content.inj heq
            obtain ⟨hr, -⟩ := List.cons.inj h1
            rw [← hr, hp] at hpr
            exact absurd hpr (by simp)
        | ok probe =>
          by_cases hpr : s.probeOk = true
          · simp only [ImportPer.is_csv_file_imported, hp, if_pos hpr]
            constructor
            · intro h
              exact ⟨r, rest, te, probe, rfl, hp, hpr, h⟩
            · rintro ⟨r', rest', te', probe', heq, hpr', -, hany⟩
              obtain ⟨h1, -⟩ := CsvFile.content.inj heq
              obtain ⟨hr, -⟩ := List.cons.inj h1
              rw [← hr, hp] at hpr'
              obtain rfl := Except.ok.inj hpr'
              exact hany
          · simp only [ImportPer.is_csv_file_imported, hp, if_neg hpr]
            constructor
            · intro h; exact absurd h (by simp)
            · rintro ⟨-, -, -, -, -, -, hpr', -⟩
              exact absurd hpr' hpr
  · intro probe row
    rw [ImportPer.row_matches_where, List.all_eq_true]
    constructor
    · intro h pv hm
      have h2 := h pv hm
      rcases pv with ⟨p1, p2⟩
      cases p1 <;> simpa using h2
    · intro h pv hm
      have h2 := h pv hm
      rcases pv with ⟨p1, p2⟩
      cases p1 <;> simp_all

/-- Claim C7: `import_csv_data` bulk-inserts exactly when the batch reaches
`batch_size` and flushes the remaining partial batch at stream end: over an
all-inserts-succeed sink, the recorded call sizes are `batch_size` repeated
`n / batch_size` times followed by one call of size `n % batch_size` when
nonzero, and the returned count is `n`, the number of decodable data rows. -/
theorem C7_theorem (rows : List Record) (batch_size : ℕ) (s : Sink)
    (hb : 0 < batch_size) (hok : ∀ i, s.ok i = true) :
    ImportCsv.import_csv_data (CsvFile.content rows Option.none) batch_size s =
      ({ s with
          calls := s.calls ++
            (List.replicate ((Loader.ok_rows ImportCsv.process_row rows).length / batch_size)
              (batch_size, true) ++
              (if (Loader.ok_rows ImportCsv.process_row rows).length % batch_size = 0 then []
               else [((Loader.ok_rows ImportCsv.process_row rows).length % batch_size, true)])),
          rows := s.rows ++ Loader.ok_rows ImportCsv.process_row rows },
       .ok (Loader.ok_rows ImportCsv.process_row rows).length) :=
  Loader.import_csv_data_ok_char ImportCsv.process_row batch_size hb rows s hok

/-- Claim C7, witness: with batchSize 2 and a file of five decodable data
rows, the sink receives exactly three bulk-insert calls of sizes [2, 2, 1]
and the returned count is 5. -/
theorem C7_witness :
    ImportCsv.import_csv_data (CsvFile.content [[], [], [], [], []] Option.none) 2 healthy_sink =
      ({ healthy_sink with
          calls := [(2, true), (2, true), (1, true)],
          rows := List.replicate 5 ImportCsv.null_row },
       .ok 5) := by
  have h := C7_theorem [[], [], [], [], []] 2 healthy_sink (by decide) (fun i => rfl)
  rw [h]
  rfl

/-- Claim C10: (1) when a mid-stream flush raises, the loop step records the
failed call, keeps the whole batch (the rows just appended stay for the next
flush attempt), and does not advance the count; (2) every loop step changes
the running count by exactly the size of the bulk-insert calls that completed
without raising during it; (3) whenever `import_csv_data` returns a count,
that count equals the total size of the bulk-insert calls that completed
without raising. -/
theorem C10_theorem :
    (∀ (batch_size : ℕ) (s : Sink) (batch : List (List Value)) (total : ℕ)
        (row : Record) (p : List Value),
      ImportCsv.process_row row = .ok p →
      batch_size ≤ (batch ++ [p]).length →
      s.ok s.calls.length = false →
      Loader.import_row_step ImportCsv.process_row batch_size (s, batch, total) row =
        ({ s with calls := s.calls ++ [((batch ++ [p]).length, false)] },
         batch ++ [p], total)) ∧
    (∀ (batch_size : ℕ) (st : Sink × List (List Value) × ℕ) (row : Record),
      (Loader.import_row_step ImportCsv.process_row batch_size st row).2.2 + totalOk st.1 =
        st.2.2 + totalOk (Loader.import_row_step ImportCsv.process_row batch_size st row).1) ∧
    (∀ (file : CsvFile) (batch_size : ℕ) (s s' : Sink) (n : ℕ),
      ImportCsv.import_csv_data file batch_size s = (s', .ok n) →
      n + totalOk s = totalOk s') := by
  refine ⟨?_, ?_, ?_⟩
  · intro batch_size s batch total row p hp hfull hfail
    simp only [List.length_append, List.length_singleton] at hfull
    simp [Loader.import_row_step, hp, flush_step, hfull, execute_batch, hfail]
  · intro batch_size st row
    exact Loader.import_row_step_count ImportCsv.process_row batch_size st row
  · intro file batch_size s s' n h
    exact Loader.import_csv_data_count ImportCsv.process_row batch_size file s s' n h

/-- Claim C10, witness: with batchSize 2, three decodable rows, and a sink
whose first insert call fails, the import retries the kept rows (calls of
sizes 2 then 3), returns count 3, and 3 is the total size of the successful
calls. -/
theorem C10_witness :
    (ImportCsv.import_csv_data (CsvFile.content [[], [], []] Option.none) 2 fail_sink).2 =
      .ok 3 ∧
    3 + totalOk fail_sink =
      totalOk (ImportCsv.import_csv_data (CsvFile.content [[], [], []] Option.none) 2 fail_sink).1 := by
  have hres : (ImportCsv.import_csv_data (CsvFile.content [[], [], []] Option.none) 2 fail_sink).2 =
      Except.ok 3 := by decide
  exact ⟨hres, C10_theorem.2.2 (CsvFile.content [[], [], []] Option.none) 2 fail_sink
    (ImportCsv.import_csv_data (CsvFile.content [[], [], []] Option.none) 2 fail_sink).1 3
    (by rw [← hres])⟩

/-- Claim C3, counterexample: file 1 flushes one full batch and then raises
mid-stream (its outcome is failed, contributing 0 to the total), yet after the
run the durable table contains its two rows — committed by file 2's commit,
because the per-file failure path never rolls back.  The rows are
distinguishable from file 2's single row. -/
theorem C3_counterexample :
    (ImportCsv.import_multiple_csv_files
        [CsvFile.content [rec_a, rec_b] (some PyErr.streamError),
         CsvFile.content [rec_c] Option.none] 2 healthy_sink).1.committed =
      [ImportCsv.company_row "a", ImportCsv.company_row "b",
       ImportCsv.company_row "c"] ∧
    (ImportCsv.import_multiple_csv_files
        [CsvFile.content [rec_a, rec_b] (some PyErr.streamError),
         CsvFile.content [rec_c] Option.none] 2 healthy_sink).2.2 =
      [⟨false, 0, true⟩, ⟨false, 1, false⟩] ∧
    ImportCsv.company_row "a" ≠ ImportCsv.company_row "c" := by decide

/-- Claim C3, amended: rows flushed before a mid-stream error are not
committed at that file's boundary, but they are not rolled back either: they
stay pending in the open transaction and the next successful file's commit
durably commits them together with its own rows, so the durable state can
contain rows of a file that was never completely imported. -/
theorem C3_theorem (s : Sink) (hok : ∀ i, s.ok i = true) :
    ImportCsv.import_multiple_csv_files
        [CsvFile.content [rec_a, rec_b] (some PyErr.streamError),
         CsvFile.content [rec_c] Option.none] 2 s =
      ({ s with
          calls := s.calls ++ [(2, true), (1, true)],
          rows := [],
          committed := s.committed ++ (s.rows ++
            [ImportCsv.company_row "a", ImportCsv.company_row "b",
             ImportCsv.company_row "c"]) },
       1, [⟨false, 0, true⟩, ⟨false, 1, false⟩]) := by
  have hva : Loader.ok_rows ImportCsv.process_row [rec_a, rec_b] =
      [ImportCsv.company_row "a", ImportCsv.company_row "b"] := by decide
  have hvc : Loader.ok_rows ImportCsv.process_row [rec_c] =
      [ImportCsv.company_row "c"] := by decide
  have h1' : ImportCsv.import_csv_data
      (CsvFile.content [rec_a, rec_b] (some PyErr.streamError)) 2 s =
      ({ s with calls := s.calls ++ [((2 : ℕ), true)],
                rows := s.rows ++ [ImportCsv.company_row "a", ImportCsv.company_row "b"] },
       Except.error PyErr.streamError) := by
    show Loader.import_csv_data ImportCsv.process_row
      (CsvFile.content [rec_a, rec_b] (some PyErr.streamError)) 2 s = _
    rw [Loader.import_csv_data_err_char ImportCsv.process_row 2 (by decide)
      [rec_a, rec_b] PyErr.streamError s hok, hva]
    rfl
  have h2' : ImportCsv.import_csv_data (CsvFile.content [rec_c] Option.none) 2
      { s with calls := s.calls ++ [((2 : ℕ), true)],
               rows := s.rows ++ [ImportCsv.company_row "a", ImportCsv.company_row "b"] } =
      ({ s with calls := (s.calls ++ [((2 : ℕ), true)]) ++ [((1 : ℕ), true)],
                rows := (s.rows ++ [ImportCsv.company_row "a", ImportCsv.company_row "b"]) ++
                  [ImportCsv.company_row "c"] },
       Except.ok 1) := by
    show Loader.import_csv_data ImportCsv.process_row
      (CsvFile.content [rec_c] Option.none) 2 _ = _
    rw [Loader.import_csv_data_ok_char ImportCsv.process_row 2 (by decide) [rec_c] { s with calls := s.calls ++ [((2 : ℕ), true)], rows := s.rows ++ [ImportCsv.company_row "a", ImportCsv.company_row "b"] } (fun i => hok i), hvc]
    rfl
  simp only [ImportCsv.import_multiple_csv_files, List.foldl_cons, List.foldl_nil]
  rw [h1']
  dsimp only
  rw [h2']
  dsimp only
  simp [commit, List.append_assoc]

/-- Claim C3, witness: the amended behavior at a fresh healthy sink — the
failed file's two rows end up durably committed next to the succeeding
file's row. -/
theorem C3_witness :
    ImportCsv.import_multiple_csv_files
        [CsvFile.content [rec_a, rec_b] (some PyErr.streamError),
         CsvFile.content [rec_c] Option.none] 2 healthy_sink =
      ({ healthy_sink with
          calls := [(2, true), (1, true)],
          rows := [],
          committed := [ImportCsv.company_row "a", ImportCsv.company_row "b",
            ImportCsv.company_row "c"] },
       1, [⟨false, 0, true⟩, ⟨false, 1, false⟩]) := by
  have h := C3_theorem healthy_sink (fun i => rfl)
  rw [h]
  rfl

/-- Claim C6, counterexample: a file whose first record raises during
coercion (`JOB_COUNT = "inf"`) defeats the duplicate guard: the guard's
exception handler reports "not imported", so a second import of the same file
is not skipped (outcome `skipped=false, rowsImported=1`) and the table gains
the file's decodable row twice. -/
theorem C6_counterexample :
    (ImportPer.import_multiple_files [CsvFile.content [rec_inf, []] Option.none] 1000
        (ImportPer.import_multiple_files [CsvFile.content [rec_inf, []] Option.none] 1000
          healthy_sink).1).1.committed =
      [ImportPer.null_row, ImportPer.null_row] ∧
    (ImportPer.import_multiple_files [CsvFile.content [rec_inf, []] Option.none] 1000
        (ImportPer.import_multiple_files [CsvFile.content [rec_inf, []] Option.none] 1000
          healthy_sink).1).2.2 = [⟨false, 1, false⟩] := by decide

/-- Claim C6, amended: for every file with at least one record whose first
record coerces without raising, importing it twice with duplicate-checking
against a sink whose inserts and probes succeed adds its rows only once: the
second run leaves the sink (calls, pending, committed) exactly unchanged and
reports the file as skipped with rowsImported 0. -/
theorem C6_theorem (r : Record) (rest : List Record) (p : List Value)
    (batch_size : ℕ) (s : Sink) (hb : 0 < batch_size) (hok : ∀ i, s.ok i = true)
    (hprobe : s.probeOk = true) (hp : ImportPer.process_row r = .ok p) :
    ImportPer.import_multiple_files [CsvFile.content (r :: rest) Option.none] batch_size
        (ImportPer.import_multiple_files [CsvFile.content (r :: rest) Option.none]
          batch_size s).1 =
      ((ImportPer.import_multiple_files [CsvFile.content (r :: rest) Option.none]
          batch_size s).1,
       0, [⟨true, 0, false⟩]) := by
  have hskip : ∀ s2 : Sink,
      ImportPer.is_csv_file_imported (CsvFile.content (r :: rest) Option.none) s2 = true →
      ImportPer.import_multiple_files [CsvFile.content (r :: rest) Option.none]
        batch_size s2 = (s2, 0, [⟨true, 0, false⟩]) := by
    intro s2 hg
    simp [ImportPer.import_multiple_files, hg]
  by_cases hg1 : ImportPer.is_csv_file_imported
      (CsvFile.content (r :: rest) Option.none) s = true
  · rw [hskip s hg1]
    exact hskip s hg1
  · have hg1' : ImportPer.is_csv_file_imported
        (CsvFile.content (r :: rest) Option.none) s = false := by
      rwa [Bool.not_eq_true] at hg1
    have hokr : Loader.ok_rows ImportPer.process_row (r :: rest) =
        p :: Loader.ok_rows ImportPer.process_row rest := by
      simp [Loader.ok_rows, List.filterMap_cons, hp, Except.toOption]
    have hchar := Loader.import_csv_data_ok_char ImportPer.process_row batch_size hb
      (r :: rest) s hok
    have hrun1 : ImportPer.import_multiple_files
        [CsvFile.content (r :: rest) Option.none] batch_size s =
        (commit { s with
            calls := s.calls ++
              (List.replicate ((Loader.ok_rows ImportPer.process_row (r :: rest)).length /
                  batch_size) (batch_size, true) ++
                (if (Loader.ok_rows ImportPer.process_row (r :: rest)).length % batch_size = 0
                 then []
                 else [((Loader.ok_rows ImportPer.process_row (r :: rest)).length % batch_size,
                   true)])),
            rows := s.rows ++ Loader.ok_rows ImportPer.process_row (r :: rest) },
         0 + (Loader.ok_rows ImportPer.process_row (r :: rest)).length,
         [] ++ [⟨false, (Loader.ok_rows ImportPer.process_row (r :: rest)).length, false⟩]) := by
      simp only [ImportPer.import_multiple_files, List.foldl_cons, List.foldl_nil, hg1',
        Bool.false_eq_true, if_false, ImportPer.import_csv_data]
      rw [hchar]
    rw [hrun1]
    exact hskip _ (by
      simp [ImportPer.is_csv_file_imported, hp, commit, hprobe, hokr,
        List.any_append, List.any_cons, row_matches_where_refl])

/-- Claim C6, witness: a one-record file whose record coerces cleanly —
after a first import on a fresh healthy sink, the second import is skipped
with rowsImported 0 and changes nothing. -/
theorem C6_witness :
    ImportPer.import_multiple_files [CsvFile.content [([] : Record)] Option.none] 1000
        (ImportPer.import_multiple_files [CsvFile.content [([] : Record)] Option.none] 1000
          healthy_sink).1 =
      ((ImportPer.import_multiple_files [CsvFile.content [([] : Record)] Option.none] 1000
          healthy_sink).1, 0, [⟨true, 0, false⟩]) :=
  C6_theorem [] [] ImportPer.null_row 1000 healthy_sink (by decide) (fun i => rfl) rfl
    (by decide)
